import Mathlib

/-!
Verification of the training-orchestration loop of deepsignal2/train.py.

The `train` function is embedded shallowly:
* per-batch accuracies and the accuracy state are exact rationals (the
  float64 values of the source are idealized as `ℚ`);
* `np.mean` over an empty list returns IEEE NaN in the source (with a
  RuntimeWarning, not an exception); NaN is modelled as `none` and every
  `NaN > x` comparison as `false`, which is all the loop observes of it;
* the classifier/optimizer/scheduler state is an abstract type `P`,
  transformed by abstract functions (the loop never inspects it, it only
  threads it and snapshots it to checkpoint files);
* training and validation batches are an abstract type `B`; the per-batch
  validation accuracy is an abstract function of the current parameters and
  the batch.
-/

namespace DeepsignalTrain

/-! ### Checkpoint file names and startup cleanup (train.py lines 42-52, 129) -/

/-- Strip an expected head from a character list: `stripHead pat s` is
`some rest` exactly when `s = pat ++ rest`. -/
def stripHead : List Char → List Char → Option (List Char)
  | [], s => some s
  | _ :: _, [] => none
  | p :: ps, c :: cs => if c = p then stripHead ps cs else none

/-- `re.match` of the pattern `epoch\d+\.ckpt*` (train.py line 43) against a
file name: `epoch`, then one or more digits, then `.ckp`, then zero or more
`t`. Since `re.match` anchors only at the start of the string and the
pattern ends with `t*`, the characters after `.ckp` are unconstrained; and
since `.` is not a digit, taking the maximal digit run is equivalent to the
regex engine's backtracking search. -/
def ckptMatch (s : String) : Bool :=
  match stripHead "epoch".toList s.toList with
  | none => false
  | some rest =>
    (!(rest.takeWhile Char.isDigit).isEmpty)
      && (stripHead ".ckp".toList (rest.dropWhile Char.isDigit)).isSome

/-- A filesystem side effect performed by the startup phase. -/
inductive FsAction : Type
  | makeDir : String → FsAction
  | removeFile : String → FsAction
  deriving DecidableEq

/-- Python `str.rstrip` with argument the slash character: drop every
trailing `/`. -/
def rstripSlash (s : String) : String :=
  String.mk ((s.toList.reverse.dropWhile (fun c => c = '/')).reverse)

/-- Startup directory handling (train.py lines 42-52). `abspath` abstracts
`os.path.abspath`, which depends on the process working directory;
`dirExists` is the answer of `os.path.exists` and `listing` the answer of
`os.listdir` for the normalized directory. The result is the final
`model_dir` string together with the filesystem actions performed, in
order. When `model_dir` is exactly the root string, the whole block is
skipped. -/
def startup (abspath : String → String) (model_dir : String) (dirExists : Bool)
    (listing : List String) : String × List FsAction :=
  if model_dir = "/" then (model_dir, [])
  else
    let d := rstripSlash (abspath model_dir)
    if dirExists then
      (d ++ "/", (listing.filter ckptMatch).map fun f => FsAction.removeFile (d ++ "/" ++ f))
    else
      (d ++ "/", [FsAction.makeDir d])

/-- The checkpoint path written at train.py line 129: `model_dir` followed by
`epoch`, the decimal epoch index, and `.ckpt`. -/
def ckptPath (model_dir : String) (epoch : Nat) : String :=
  model_dir ++ "epoch" ++ Nat.repr epoch ++ ".ckpt"

/-! ### The training loop state (train.py lines 72-146) -/

/-- `np.mean` over the list of per-batch scores: the exact arithmetic mean,
or `none` (modelling the NaN that numpy returns, without raising) when the
list is empty. -/
def npMean (xs : List ℚ) : Option ℚ :=
  if xs.isEmpty then none else some (xs.sum / (xs.length : ℚ))

/-- Python `m > x` where `m` may be NaN (`none`): every comparison against
NaN is false. -/
def optGt (m : Option ℚ) (x : ℚ) : Bool :=
  match m with
  | none => false
  | some q => decide (x < q)

/-- The mutable loop state of `train`, with the abstract
classifier/optimizer state `P`: `curr_best_accuracy` (line 72),
`curr_best_accuracy_epoch` (line 74), and the log of checkpoint write
events, each recorded as the epoch index used in the file name
(line 129). -/
structure TrainState (P : Type) : Type where
  params : P
  curr_best_accuracy : ℚ
  curr_best_accuracy_epoch : ℚ
  writes : List Nat

/-- The per-validation-round checkpoint decision (train.py lines 126-129):
given the run-level best, the epoch-level best and the round's mean
accuracy (`none` = NaN), return the new epoch-level best together with
whether a checkpoint file was written. The float literal `0.001` of the
source is the exact rational `1 / 1000`. -/
def ckptStep (curr_best curr_best_epoch : ℚ) (mean : Option ℚ) : ℚ × Bool :=
  match mean with
  | none => (curr_best_epoch, false)
  | some m =>
    if curr_best_epoch < m then
      (m, decide (curr_best - 1 / 1000 < m))
    else
      (curr_best_epoch, false)

/-- One pass of the validation scorer (train.py lines 98-126): the
classifier with parameters `p` is evaluated on every batch of the
validation stream and the per-batch accuracies are averaged. (Losses,
precisions and recalls are averaged the same way in the source but are only
printed; accuracy is the only aggregate the loop's decisions read.) -/
def validationMean {P B : Type} (score : P → B → ℚ) (p : P) (validData : List B) : Option ℚ :=
  npMean (validData.map (score p))

/-- Processing of one validation round inside the training loop (train.py
lines 97-139): the parameters are read for scoring but not written; the
epoch-best accuracy and the write log are updated by the checkpoint
decision. -/
def valUpdate {P B : Type} (score : P → B → ℚ) (validData : List B) (epoch : Nat)
    (p : P) (st : TrainState P) : TrainState P :=
  let r := ckptStep st.curr_best_accuracy st.curr_best_accuracy_epoch
    (validationMean score p validData)
  { params := p
    curr_best_accuracy := st.curr_best_accuracy
    curr_best_accuracy_epoch := r.1
    writes := st.writes ++ if r.2 then [epoch] else [] }

/-- The validation trigger (train.py line 96): the 0-indexed batch counter
`i` becomes the 1-indexed step counter `i + 1` and is tested against
`step_interval`. -/
def triggersValidation (i step_interval : Nat) : Bool :=
  (i + 1) % step_interval == 0

/-- One training step (train.py lines 75-139): the optimizer update on
batch `b` (model.train, forward, backward, optimizer.step — abstracted as
`trainF`), followed by a validation round exactly when the step counter
triggers one. -/
def stepFn {P B : Type} (step_interval : Nat) (trainF : P → B → P) (score : P → B → ℚ)
    (validData : List B) (epoch i : Nat) (b : B) (st : TrainState P) : TrainState P :=
  let p := trainF st.params b
  if triggersValidation i step_interval then
    valUpdate score validData epoch p st
  else
    { st with params := p }

/-- The inner loop of one epoch over the enumerated training batches
(train.py line 75, `enumerate(train_loader)`). -/
def epochLoop {P B : Type} (step_interval : Nat) (trainF : P → B → P) (score : P → B → ℚ)
    (validData : List B) (epoch : Nat) (l : List (Nat × B)) (st : TrainState P) : TrainState P :=
  l.foldl (fun s ib => stepFn step_interval trainF score validData epoch ib.1 ib.2 s) st

/-- The configuration fields of `args` that the loop reads. `min_epoch_num`
is kept as an integer so that the comparison `epoch >= min_epoch_num - 1`
is Python's. -/
structure Config : Type where
  max_epoch_num : Nat
  min_epoch_num : Int
  step_interval : Nat

/-- The external collaborators of the loop: initial classifier/optimizer
state, the optimizer update per training batch, the per-epoch scheduler
step, the per-batch validation accuracy, and the two batch streams (the
training stream may differ per epoch because of shuffling; the validation
stream is scored in full each round and its mean is order-independent). -/
structure World (P B : Type) : Type where
  initParams : P
  trainF : P → B → P
  schedStep : P → P
  score : P → B → ℚ
  trainData : Nat → List B
  validData : List B

/-- Start-of-epoch reset (train.py line 74). -/
def epochStart {P : Type} (st : TrainState P) : TrainState P :=
  { st with curr_best_accuracy_epoch := 0 }

/-- One full epoch body (train.py lines 74-140): reset the epoch best, run
every training step, then the scheduler step. -/
def epochBody {P B : Type} (cfg : Config) (w : World P B) (epoch : Nat)
    (st : TrainState P) : TrainState P :=
  let st1 := epochLoop cfg.step_interval w.trainF w.score w.validData epoch
    (w.trainData epoch).enum (epochStart st)
  { st1 with params := w.schedStep st1.params }

/-- End-of-epoch bookkeeping (train.py lines 141-146): the new run-level
best accuracy, and whether the run breaks out of the epoch loop (early
stop). -/
def epochEnd (min_epoch_num : Int) (epoch : Nat) (curr_best curr_best_epoch : ℚ) : ℚ × Bool :=
  if curr_best < curr_best_epoch then
    (curr_best_epoch, false)
  else if min_epoch_num - 1 ≤ (epoch : Int) then
    (curr_best, true)
  else
    (curr_best, false)

/-- How a run ends: normally after exhausting the epoch range, or by the
early-stop break at the end of the named epoch. -/
inductive RunOutcome : Type
  | completed : RunOutcome
  | stoppedEarly : Nat → RunOutcome
  deriving DecidableEq

/-- The epoch loop (train.py line 73) from epoch index `e` with `n` epochs
of the range left. -/
def runFrom {P B : Type} (cfg : Config) (w : World P B) :
    Nat → Nat → TrainState P → TrainState P × RunOutcome
  | 0, _, st => (st, RunOutcome.completed)
  | Nat.succ n, e, st =>
    let st1 := epochBody cfg w e st
    let r := epochEnd cfg.min_epoch_num e st1.curr_best_accuracy st1.curr_best_accuracy_epoch
    let st2 := { st1 with curr_best_accuracy := r.1 }
    if r.2 then (st2, RunOutcome.stoppedEarly e)
    else runFrom cfg w n (e + 1) st2

/-- The loop state on entry (train.py line 72): both accuracy registers 0,
no checkpoints written. -/
def initState {P B : Type} (w : World P B) : TrainState P :=
  { params := w.initParams
    curr_best_accuracy := 0
    curr_best_accuracy_epoch := 0
    writes := [] }

/-- The whole training run (train.py lines 72-146). -/
def run {P B : Type} (cfg : Config) (w : World P B) : TrainState P × RunOutcome :=
  runFrom cfg w cfg.max_epoch_num 0 (initState w)

/-! ### Helper lemmas -/

theorem stepFn_curr_best {P B : Type} (si : Nat) (tf : P → B → P) (sc : P → B → ℚ)
    (vd : List B) (e i : Nat) (b : B) (st : TrainState P) :
    (stepFn si tf sc vd e i b st).curr_best_accuracy = st.curr_best_accuracy := by
  simp only [stepFn, valUpdate]
  split <;> rfl

theorem epochLoop_curr_best {P B : Type} (si : Nat) (tf : P → B → P) (sc : P → B → ℚ)
    (vd : List B) (e : Nat) (l : List (Nat × B)) (st : TrainState P) :
    (epochLoop si tf sc vd e l st).curr_best_accuracy = st.curr_best_accuracy := by
  induction l generalizing st with
  | nil => rfl
  | cons hd tl ih =>
    simp only [epochLoop, List.foldl_cons] at *
    rw [ih, stepFn_curr_best]

theorem epochBody_curr_best {P B : Type} (cfg : Config) (w : World P B) (e : Nat)
    (st : TrainState P) :
    (epochBody cfg w e st).curr_best_accuracy = st.curr_best_accuracy := by
  simp only [epochBody]
  exact epochLoop_curr_best _ _ _ _ _ _ _

theorem ckptStep_fst_le (curr_best curr_best_epoch : ℚ) (m : Option ℚ) :
    curr_best_epoch ≤ (ckptStep curr_best curr_best_epoch m).1 := by
  cases m with
  | none => exact le_refl _
  | some q =>
    simp only [ckptStep]
    split
    · exact le_of_lt (by assumption)
    · exact le_refl _

theorem ckptStep_fst_eq_or (curr_best curr_best_epoch : ℚ) (m : Option ℚ) :
    (ckptStep curr_best curr_best_epoch m).1 = curr_best_epoch
      ∨ optGt m curr_best_epoch = true := by
  cases m with
  | none => exact Or.inl rfl
  | some q =>
    by_cases h : curr_best_epoch < q
    · exact Or.inr (by simp [optGt, h])
    · exact Or.inl (by simp [ckptStep, h])

theorem stepFn_cbae_le {P B : Type} (si : Nat) (tf : P → B → P) (sc : P → B → ℚ)
    (vd : List B) (e i : Nat) (b : B) (st : TrainState P) :
    st.curr_best_accuracy_epoch ≤ (stepFn si tf sc vd e i b st).curr_best_accuracy_epoch := by
  simp only [stepFn, valUpdate]
  split
  · exact ckptStep_fst_le _ _ _
  · exact le_refl _

theorem epochLoop_cbae_le {P B : Type} (si : Nat) (tf : P → B → P) (sc : P → B → ℚ)
    (vd : List B) (e : Nat) (l : List (Nat × B)) (st : TrainState P) :
    st.curr_best_accuracy_epoch ≤ (epochLoop si tf sc vd e l st).curr_best_accuracy_epoch := by
  induction l generalizing st with
  | nil => exact le_refl _
  | cons hd tl ih =>
    simp only [epochLoop, List.foldl_cons] at *
    exact le_trans (stepFn_cbae_le si tf sc vd e hd.1 hd.2 st) (ih _)

theorem epochEnd_fst_le (min_epoch_num : Int) (e : Nat) (curr_best curr_best_epoch : ℚ) :
    curr_best ≤ (epochEnd min_epoch_num e curr_best curr_best_epoch).1 := by
  simp only [epochEnd]
  split_ifs with h1 h2
  · exact le_of_lt h1
  · exact le_refl _
  · exact le_refl _

theorem epochEnd_snd_iff (min_epoch_num : Int) (e : Nat) (curr_best curr_best_epoch : ℚ) :
    (epochEnd min_epoch_num e curr_best curr_best_epoch).2 = true ↔
      (curr_best_epoch ≤ curr_best ∧ min_epoch_num - 1 ≤ (e : Int)) := by
  simp only [epochEnd]
  split_ifs with h1 h2
  · simp [not_le.mpr h1]
  · simp [not_lt.mp h1, h2]
  · simp [h2]

/-- Unfolding of one iteration of the epoch loop. -/
theorem runFrom_succ {P B : Type} (cfg : Config) (w : World P B) (n e : Nat)
    (st : TrainState P) :
    runFrom cfg w (n + 1) e st =
      if (epochEnd cfg.min_epoch_num e (epochBody cfg w e st).curr_best_accuracy
            (epochBody cfg w e st).curr_best_accuracy_epoch).2 then
        ({ epochBody cfg w e st with
            curr_best_accuracy := (epochEnd cfg.min_epoch_num e
              (epochBody cfg w e st).curr_best_accuracy
              (epochBody cfg w e st).curr_best_accuracy_epoch).1 },
          RunOutcome.stoppedEarly e)
      else
        runFrom cfg w n (e + 1)
          { epochBody cfg w e st with
            curr_best_accuracy := (epochEnd cfg.min_epoch_num e
              (epochBody cfg w e st).curr_best_accuracy
              (epochBody cfg w e st).curr_best_accuracy_epoch).1 } := rfl

theorem runFrom_curr_best_le {P B : Type} (cfg : Config) (w : World P B) :
    ∀ (n e : Nat) (st : TrainState P),
      st.curr_best_accuracy ≤ (runFrom cfg w n e st).1.curr_best_accuracy := by
  intro n
  induction n with
  | zero => intro e st; exact le_refl _
  | succ n ih =>
    intro e st
    have h1 : st.curr_best_accuracy
        ≤ (epochEnd cfg.min_epoch_num e (epochBody cfg w e st).curr_best_accuracy
            (epochBody cfg w e st).curr_best_accuracy_epoch).1 :=
      calc st.curr_best_accuracy
          = (epochBody cfg w e st).curr_best_accuracy := (epochBody_curr_best cfg w e st).symm
        _ ≤ _ := epochEnd_fst_le _ _ _ _
    rw [runFrom_succ]
    split
    · exact h1
    · exact le_trans h1 (ih (e + 1) _)

theorem runFrom_stop_ge {P B : Type} (cfg : Config) (w : World P B) :
    ∀ (n e k : Nat) (st : TrainState P),
      (runFrom cfg w n e st).2 = RunOutcome.stoppedEarly k → e ≤ k := by
  intro n
  induction n with
  | zero => intro e k st h; simp [runFrom] at h
  | succ n ih =>
    intro e k st h
    rw [runFrom_succ] at h
    split at h
    · simp only at h
      cases h
      exact le_refl _
    · exact le_trans (Nat.le_succ e) (ih (e + 1) k _ h)

/-! ### Claim theorems -/

/-- Claim C1: at the end of every epoch, the run halts early if and only if
the epoch's best validation accuracy did not exceed the run-level best
(`curr_best_accuracy_epoch <= curr_best_accuracy`) and the 0-indexed epoch
index is at least `min_epoch_num - 1`; otherwise the run continues (or ends
normally once the epoch range is exhausted, i.e. after `max_epoch_num`
epochs). -/
theorem early_stop_iff {P B : Type} (cfg : Config) (w : World P B) (n e : Nat)
    (st : TrainState P) :
    ((runFrom cfg w (n + 1) e st).2 = RunOutcome.stoppedEarly e ↔
      ((epochBody cfg w e st).curr_best_accuracy_epoch
          ≤ (epochBody cfg w e st).curr_best_accuracy ∧
        cfg.min_epoch_num - 1 ≤ (e : Int))) ∧
    (runFrom cfg w 0 e st).2 = RunOutcome.completed := by
  constructor
  · rw [← epochEnd_snd_iff cfg.min_epoch_num e (epochBody cfg w e st).curr_best_accuracy
      (epochBody cfg w e st).curr_best_accuracy_epoch]
    by_cases hb : (epochEnd cfg.min_epoch_num e (epochBody cfg w e st).curr_best_accuracy
        (epochBody cfg w e st).curr_best_accuracy_epoch).2 = true
    · rw [runFrom_succ, if_pos hb]
      simp [hb]
    · rw [runFrom_succ, if_neg hb]
      constructor
      · intro h
        exact absurd (runFrom_stop_ge cfg w n (e + 1) e _ h) (by omega)
      · intro h
        exact absurd h hb
  · rfl

/-- Claim C3: `curr_best_accuracy` starts the run at 0 and is monotonically
non-decreasing: the training steps leave it unchanged, the end-of-epoch
update can only raise it, and hence the whole epoch loop can only raise
it. -/
theorem curr_best_monotone {P B : Type} (cfg : Config) (w : World P B) :
    (initState w).curr_best_accuracy = 0 ∧
    (∀ (e i : Nat) (b : B) (st : TrainState P),
      (stepFn cfg.step_interval w.trainF w.score w.validData e i b st).curr_best_accuracy
        = st.curr_best_accuracy) ∧
    (∀ (e : Nat) (curr_best curr_best_epoch : ℚ),
      curr_best ≤ (epochEnd cfg.min_epoch_num e curr_best curr_best_epoch).1) ∧
    (∀ (n e : Nat) (st : TrainState P),
      st.curr_best_accuracy ≤ (runFrom cfg w n e st).1.curr_best_accuracy) :=
  ⟨rfl, fun e i b st => stepFn_curr_best _ _ _ _ e i b st,
    fun e curr_best curr_best_epoch => epochEnd_fst_le _ e curr_best curr_best_epoch,
    fun n e st => runFrom_curr_best_le cfg w n e st⟩

/-- Claim C4: `curr_best_accuracy_epoch` is reset to 0 at the start of every
epoch (the epoch body does not depend on its incoming value), it is
monotonically non-decreasing across the steps (hence across the validation
rounds) of the epoch, and it is only reassigned when the round's mean
accuracy strictly exceeds it. -/
theorem epoch_best_monotone {P B : Type} (cfg : Config) (w : World P B) :
    (∀ st : TrainState P, (epochStart st).curr_best_accuracy_epoch = 0) ∧
    (∀ (e : Nat) (st : TrainState P),
      epochBody cfg w e st = epochBody cfg w e (epochStart st)) ∧
    (∀ (e i : Nat) (b : B) (st : TrainState P),
      st.curr_best_accuracy_epoch
        ≤ (stepFn cfg.step_interval w.trainF w.score w.validData e i b
            st).curr_best_accuracy_epoch) ∧
    (∀ (e : Nat) (l : List (Nat × B)) (st : TrainState P),
      st.curr_best_accuracy_epoch
        ≤ (epochLoop cfg.step_interval w.trainF w.score w.validData e l
            st).curr_best_accuracy_epoch) ∧
    (∀ (curr_best curr_best_epoch : ℚ) (m : Option ℚ),
      (ckptStep curr_best curr_best_epoch m).1 = curr_best_epoch
        ∨ optGt m curr_best_epoch = true) :=
  ⟨fun _ => rfl, fun _ _ => rfl,
    fun e i b st => stepFn_cbae_le _ _ _ _ e i b st,
    fun e l st => epochLoop_cbae_le _ _ _ _ e l st,
    fun curr_best curr_best_epoch m => ckptStep_fst_eq_or curr_best curr_best_epoch m⟩

/-- Claim C2: a checkpoint is written in a validation round exactly when the
round's mean accuracy strictly exceeds `curr_best_accuracy_epoch` before the
update and the updated `curr_best_accuracy_epoch` exceeds
`curr_best_accuracy - 0.001`; when the first comparison fails the round
changes neither the epoch best nor the write decision; at most one write is
logged per round. -/
theorem checkpoint_write_iff {P B : Type} (curr_best curr_best_epoch : ℚ) (m : Option ℚ)
    (score : P → B → ℚ) (validData : List B) (epoch : Nat) (p : P) (st : TrainState P) :
    ((ckptStep curr_best curr_best_epoch m).2
        = (optGt m curr_best_epoch
            && decide (curr_best - 1 / 1000 < (ckptStep curr_best curr_best_epoch m).1))) ∧
    ((ckptStep curr_best curr_best_epoch m).1 = curr_best_epoch
        ∧ (ckptStep curr_best curr_best_epoch m).2 = false
      ∨ optGt m curr_best_epoch = true) ∧
    (valUpdate score validData epoch p st).writes.length ≤ st.writes.length + 1 := by
  refine ⟨?_, ?_, ?_⟩
  · cases m with
    | none => simp [ckptStep, optGt]
    | some q =>
      by_cases h : curr_best_epoch < q
      · simp [ckptStep, optGt, h]
      · simp [ckptStep, optGt, h]
  · cases m with
    | none => exact Or.inl ⟨rfl, rfl⟩
    | some q =>
      by_cases h : curr_best_epoch < q
      · exact Or.inr (by simp [optGt, h])
      · exact Or.inl (by simp [ckptStep, h])
  · simp only [valUpdate]
    split
    · simp
    · simp

/-- Claim C8: a validation round does not mutate the classifier parameters:
the state after processing the round carries exactly the parameters it was
entered with, so the parameters after any training step are exactly the
result of that step's optimizer update. -/
theorem validation_preserves_params {P B : Type} (step_interval : Nat) (trainF : P → B → P)
    (score : P → B → ℚ) (validData : List B) (e i : Nat) (b : B) (p : P)
    (st : TrainState P) :
    (valUpdate score validData e p st).params = p ∧
    (stepFn step_interval trainF score validData e i b st).params = trainF st.params b := by
  refine ⟨rfl, ?_⟩
  simp only [stepFn]
  split
  · rfl
  · rfl

/-- Claim C5 (amended): an empty validation stream is not fatal. The
averaging of zero batch scores yields NaN (`np.mean` of an empty list
returns NaN with a RuntimeWarning; it does not raise), the NaN comparison
at the checkpoint gate is false, and so the training step with an empty
validation stream reduces to the bare optimizer update: no accuracy-state
change, no write, and the loop continues. -/
theorem empty_validation_noop {P B : Type} (step_interval : Nat) (trainF : P → B → P)
    (score : P → B → ℚ) (e i : Nat) (b : B) (st : TrainState P) :
    npMean [] = none ∧
    stepFn step_interval trainF score [] e i b st
      = { st with params := trainF st.params b } := by
  refine ⟨rfl, ?_⟩
  simp only [stepFn]
  split
  · simp [valUpdate, validationMean, npMean, ckptStep]
  · rfl

/-- A run configuration whose validation stream yields zero batches:
one epoch of one training batch, validation after every step. -/
def cfgEmptyValid : Config :=
  { max_epoch_num := 1, min_epoch_num := 2, step_interval := 1 }

/-- The collaborators for `cfgEmptyValid`: trivial parameters and an empty
validation stream. -/
def worldEmptyValid : World Unit Unit :=
  { initParams := ()
    trainF := fun p _ => p
    schedStep := fun p => p
    score := fun _ _ => 0
    trainData := fun _ => [()]
    validData := [] }

/-- Claim C5 counterexample: with a validation stream of zero batches the
run does not terminate with an error — the validation round is reached
(step_interval = 1 triggers it at the first step) and the run nevertheless
completes its epoch range normally, with no checkpoint written. -/
theorem empty_validation_run_completes :
    (run cfgEmptyValid worldEmptyValid).2 = RunOutcome.completed ∧
    (run cfgEmptyValid worldEmptyValid).1.writes = [] := by
  constructor <;> rfl

/-- Claim C6: when the model directory is not the root string and already
exists, the startup phase deletes exactly the listed files whose names
match the checkpoint pattern — each matching file produces one remove
action on that directory, and no other action is performed. -/
theorem startup_cleanup_exact (abspath : String → String) (model_dir : String)
    (listing : List String) (h : model_dir ≠ "/") :
    (startup abspath model_dir true listing).2
      = (listing.filter ckptMatch).map
          (fun f => FsAction.removeFile (rstripSlash (abspath model_dir) ++ "/" ++ f)) := by
  simp [startup, h]

/-- Witness for `startup_cleanup_exact`: a directory holding `epoch3.ckpt`,
`epoch10.ckpt` and `notes.txt` loses exactly the two checkpoint files. -/
theorem startup_cleanup_exact_witness :
    "m" ≠ "/" ∧
    (startup (fun s => s) "m" true ["epoch3.ckpt", "epoch10.ckpt", "notes.txt"]).2
      = [FsAction.removeFile "m/epoch3.ckpt", FsAction.removeFile "m/epoch10.ckpt"] := by
  refine ⟨by decide, ?_⟩
  rw [startup_cleanup_exact (fun s => s) "m" ["epoch3.ckpt", "epoch10.ckpt", "notes.txt"]
    (by decide)]
  decide

/-- Claim C7: within an epoch, a validation round runs exactly at the
training steps whose 1-indexed counter `i + 1` is divisible by
`step_interval`: at such steps the step is the optimizer update followed by
the validation round, at every other step it is the optimizer update
alone. -/
theorem validation_trigger_iff {P B : Type} (step_interval : Nat)
    (_h : 0 < step_interval) (trainF : P → B → P) (score : P → B → ℚ)
    (validData : List B) (e i : Nat) (b : B) (st : TrainState P) :
    stepFn step_interval trainF score validData e i b st
      = if step_interval ∣ (i + 1) then
          valUpdate score validData e (trainF st.params b) st
        else { st with params := trainF st.params b } := by
  have htrig : triggersValidation i step_interval = true ↔ step_interval ∣ (i + 1) := by
    simp [triggersValidation, Nat.dvd_iff_mod_eq_zero]
  by_cases hd : step_interval ∣ (i + 1)
  · rw [if_pos hd]
    simp only [stepFn]
    rw [if_pos (htrig.mpr hd)]
  · rw [if_neg hd]
    simp only [stepFn]
    rw [if_neg (fun hc => hd (htrig.mp hc))]

/-- Witness for `validation_trigger_iff` at `step_interval = 2`, step
counter `i = 0`. -/
theorem validation_trigger_iff_witness :
    0 < 2 ∧
    stepFn 2 (fun (p : Unit) (_ : Unit) => p) (fun (_ : Unit) (_ : Unit) => (0 : ℚ))
        ([] : List Unit) 0 0 ()
        { params := (), curr_best_accuracy := 0, curr_best_accuracy_epoch := 0, writes := [] }
      = if 2 ∣ (0 + 1) then
          valUpdate (fun (_ : Unit) (_ : Unit) => (0 : ℚ)) ([] : List Unit) 0 ()
            { params := (), curr_best_accuracy := 0, curr_best_accuracy_epoch := 0, writes := [] }
        else
          { params := (), curr_best_accuracy := 0, curr_best_accuracy_epoch := 0,
            writes := [] } :=
  ⟨by decide,
    validation_trigger_iff 2 (by decide) (fun (p : Unit) (_ : Unit) => p)
      (fun (_ : Unit) (_ : Unit) => (0 : ℚ)) ([] : List Unit) 0 0 ()
      { params := (), curr_best_accuracy := 0, curr_best_accuracy_epoch := 0, writes := [] }⟩

/-- Claim C9: the validation summary is the unweighted arithmetic mean of
the per-batch scores over one full pass, and a stream of exactly 2 batches
with accuracies 0.9 and 0.7 yields mean accuracy exactly 0.8 (= 4/5; the
source's float64 scores are idealized as exact rationals). -/
theorem validation_mean_unweighted :
    validationMean (fun (_ : Unit) (a : ℚ) => a) () [9 / 10, 7 / 10] = some (4 / 5) ∧
    ∀ accs : List ℚ,
      validationMean (fun (_ : Unit) (a : ℚ) => a) () accs
        = if accs.isEmpty then none else some (accs.sum / (accs.length : ℚ)) := by
  constructor
  · simp only [validationMean, npMean]
    norm_num
  · intro accs
    simp [validationMean, npMean, List.map_id']

/-- Claim C10: when the configured model directory is exactly the root
string, startup performs no normalization, no directory creation and no
deletion — it returns the directory unchanged with an empty action list —
and the checkpoint paths used later are the unmodified root string
concatenated with the file name. -/
theorem root_dir_untouched (abspath : String → String) (dirExists : Bool)
    (listing : List String) (e : Nat) :
    startup abspath "/" dirExists listing = ("/", []) ∧
    ckptPath (startup abspath "/" dirExists listing).1 e = ckptPath "/" e ∧
    ckptPath "/" 3 = "/epoch3.ckpt" := by
  refine ⟨by simp [startup], rfl, ?_⟩
  decide

end DeepsignalTrain
